import Mathlib

/-!
Verification of the arbitrage detection and stake-sizing engine of
`src/analytics-modules/arbitrage/arbitrage_detector.py` (class
`ArbitrageDetector`), shallowly embedded over exact rationals (`ℚ`).

Modelling notes:
* Python floats are modelled as `ℚ`; decimal literals of the source
  (`0.01`, `0.15`, `1.1`, `0.05`, `0.03`, ...) become exact fractions.
* The loosely typed `game_data` mapping is modelled by typed structures
  mirroring the fields the detector reads (`bookmakers`/`title`/`markets`/
  `key`/`outcomes`/`name`/`price` and the game identification fields).
* The two external effects of the detector — `datetime.now().isoformat()`
  and the `pd.to_datetime`-based hours-until-commence computation of
  `_assess_time_sensitivity` (which may raise, caught by the enclosing
  `try`/`except`) — are abstracted as an `Env` record: `now` is the
  wall-clock string, and `hours_until s` is `some h` when the `try` block
  computes `hours_until = h` for commence time `s`, and `none` when any
  exception is raised inside the `try` block.
* `calculate_optimal_stakes` divides by `total_bankroll`; Python raises
  `ZeroDivisionError` at bankroll `0`, so it is embedded in `Except`.
* The mutable `opportunities_found` history list only feeds
  `get_summary_stats`, which no claim touches; the embedding models the
  return values of the scanning functions, which do not depend on it.
* Python `list.sort(key=..., reverse=True)` is a stable descending sort by
  the key; it is modelled by a stable insertion sort (`sortByProfitDesc`)
  that places each element before the first element whose key is not
  larger, so ties keep their original relative order.
-/

/-- One entry of the `outcomes` list of a market: keys `name` and `price`. -/
structure Outcome where
  name : String
  price : ℚ
deriving DecidableEq

/-- One entry of the `markets` list of a bookmaker: keys `key` and `outcomes`. -/
structure Market where
  key : String
  outcomes : List Outcome
deriving DecidableEq

/-- One entry of the `bookmakers` list of a game: keys `title` and `markets`. -/
structure Bookmaker where
  title : String
  markets : List Market
deriving DecidableEq

/-- The `game_data` mapping, restricted to the fields the detector reads. -/
structure GameData where
  id : String
  sport_title : String
  home_team : String
  away_team : String
  commence_time : String
  bookmakers : List Bookmaker
deriving DecidableEq

/-- The dataclass `ArbitrageOpportunity` of the source. -/
structure ArbitrageOpportunity where
  game_id : String
  sport : String
  home_team : String
  away_team : String
  commence_time : String
  best_home_odds : ℚ
  best_home_bookmaker : String
  best_away_odds : ℚ
  best_away_bookmaker : String
  profit_percentage : ℚ
  stake_home : ℚ
  stake_away : ℚ
  guaranteed_return : ℚ
  risk_level : String
  time_sensitivity : String
  detected_at : String
deriving DecidableEq

/-- Detector configuration: the two thresholds set in `__init__`
(defaults `0.01` and `0.15`). -/
structure ArbitrageDetector where
  min_profit_threshold : ℚ := 1/100
  max_profit_threshold : ℚ := 15/100
deriving DecidableEq

/-- External environment of the detector: `now` models
`datetime.now().isoformat()`; `hours_until s` models the result of the
`pd.to_datetime`-based computation of `_assess_time_sensitivity` on
commence time `s` (`none` when that computation raises). -/
structure Env where
  now : String
  hours_until : String → Option ℚ

/-- Method `_odds_to_probability`: convert a price to an implied
probability (`1/odds` for decimal `odds ≥ 2.0`, `100/(odds+100)` for
American positive, `|odds|/(|odds|+100)` otherwise). -/
def odds_to_probability (odds : ℚ) : ℚ :=
  if 2 ≤ odds then 1 / odds
  else if 0 < odds then 100 / (odds + 100)
  else |odds| / (|odds| + 100)

/-- Method `_assess_risk` of the source. -/
def assess_risk (profit_pct home_odds away_odds : ℚ)
    (home_bookmaker away_bookmaker : String) : String :=
  if 5/100 < profit_pct then "high"
  else if home_odds < 11/10 ∨ away_odds < 11/10 then "medium"
  else
    let known_bookmakers := ["DraftKings", "FanDuel", "BetMGM", "Caesars", "PointsBet"]
    if ¬ known_bookmakers.contains home_bookmaker ∨
       ¬ known_bookmakers.contains away_bookmaker then "medium"
    else "low"

/-- Method `_assess_time_sensitivity`: inside the `try` block the game
time is parsed first, so a parse failure yields `"moderate"` before the
profit test can run; on a successful parse the profit test comes first. -/
def assess_time_sensitivity (env : Env) (game_data : GameData)
    (profit_pct : ℚ) : String :=
  match env.hours_until game_data.commence_time with
  | none => "moderate"
  | some hours_until =>
    if 3/100 < profit_pct then "urgent"
    else if hours_until < 2 then "urgent"
    else if 48 < hours_until then "stable"
    else "moderate"

/-- Method `_calculate_arbitrage` of the source. -/
def calculate_arbitrage (env : Env) (det : ArbitrageDetector)
    (game_data : GameData) (home_odds : ℚ) (home_bookmaker : String)
    (away_odds : ℚ) (away_bookmaker : String) :
    Option ArbitrageOpportunity :=
  let home_prob := odds_to_probability home_odds
  let away_prob := odds_to_probability away_odds
  let total_prob := home_prob + away_prob
  if 1 ≤ total_prob then none
  else
    let profit_pct := 1 / total_prob - 1
    if profit_pct < det.min_profit_threshold then none
    else if det.max_profit_threshold < profit_pct then none
    else
      let stake_home := home_prob / total_prob
      let stake_away := away_prob / total_prob
      let guaranteed_return := profit_pct
      some
        { game_id := game_data.id
          sport := game_data.sport_title
          home_team := game_data.home_team
          away_team := game_data.away_team
          commence_time := game_data.commence_time
          best_home_odds := home_odds
          best_home_bookmaker := home_bookmaker
          best_away_odds := away_odds
          best_away_bookmaker := away_bookmaker
          profit_percentage := profit_pct * 100
          stake_home := stake_home * 100
          stake_away := stake_away * 100
          guaranteed_return := guaranteed_return * 100
          risk_level := assess_risk profit_pct home_odds away_odds
            home_bookmaker away_bookmaker
          time_sensitivity := assess_time_sensitivity env game_data profit_pct
          detected_at := env.now }

/-- Running best price and bookmaker for each side (the
`best_home`/`best_away` dictionaries of `scan_game`, initialised to the
sentinels 0 and the empty string). -/
structure BestPair where
  home_odds : ℚ := 0
  home_bookmaker : String := ""
  away_odds : ℚ := 0
  away_bookmaker : String := ""
deriving DecidableEq

/-- Body of the innermost loop of `scan_game`: update the running best
prices with one outcome (an `if`/`elif` pair, so a quote naming the home
team is never considered for the away side). -/
def updateBest (home_team away_team bookmaker_name : String)
    (st : BestPair) (o : Outcome) : BestPair :=
  if o.name = home_team ∧ st.home_odds < o.price then
    { st with home_odds := o.price, home_bookmaker := bookmaker_name }
  else if o.name = away_team ∧ st.away_odds < o.price then
    { st with away_odds := o.price, away_bookmaker := bookmaker_name }
  else st

/-- The two nested inner loops of `scan_game` over one bookmaker entry:
only markets whose key equals "h2h" are scanned. -/
def scanBookmaker (home_team away_team : String) (st : BestPair)
    (bm : Bookmaker) : BestPair :=
  bm.markets.foldl
    (fun s m =>
      if m.key = "h2h" then m.outcomes.foldl (updateBest home_team away_team bm.title) s
      else s)
    st

/-- The full odds-extraction loop of `scan_game`. -/
def bestOdds (game_data : GameData) : BestPair :=
  game_data.bookmakers.foldl
    (scanBookmaker game_data.home_team game_data.away_team) {}

/-- Method `scan_game` of the source (its return value; the append to the
`opportunities_found` history is not modelled). -/
def scan_game (env : Env) (det : ArbitrageDetector)
    (game_data : GameData) : Option ArbitrageOpportunity :=
  if game_data.bookmakers.length < 2 then none
  else
    let best := bestOdds game_data
    if best.home_odds = 0 ∨ best.away_odds = 0 then none
    else
      calculate_arbitrage env det game_data best.home_odds
        best.home_bookmaker best.away_odds best.away_bookmaker

/-- Stable insertion of an opportunity into a list sorted by
`profit_percentage` descending: the element goes before the first element
whose profit is not larger, so earlier-seen elements win ties. Models the
effect of the stable Python `list.sort(key=..., reverse=True)`. -/
def insertByProfitDesc (x : ArbitrageOpportunity) :
    List ArbitrageOpportunity → List ArbitrageOpportunity
  | [] => [x]
  | y :: ys =>
    if y.profit_percentage ≤ x.profit_percentage then x :: y :: ys
    else y :: insertByProfitDesc x ys

/-- Stable sort by `profit_percentage` descending. -/
def sortByProfitDesc : List ArbitrageOpportunity → List ArbitrageOpportunity
  | [] => []
  | x :: xs => insertByProfitDesc x (sortByProfitDesc xs)

/-- Method `scan_multiple_games` of the source: scan each game in order,
keep the non-`None` results, sort by profit percentage, highest first
(the Python sort is stable). -/
def scan_multiple_games (env : Env) (det : ArbitrageDetector)
    (games : List GameData) : List ArbitrageOpportunity :=
  sortByProfitDesc (games.filterMap (scan_game env det))

/-- The Python `round(x, 2)`: round to 2 decimal places, ties to even
(round-half-to-even, as the Python `round` on the exact value). -/
def round2 (q : ℚ) : ℚ :=
  let c := q * 100
  let f := ⌊c⌋
  let r := c - f
  let n : ℤ :=
    if r < 1/2 then f
    else if 1/2 < r then f + 1
    else if f % 2 = 0 then f else f + 1
  (n : ℚ) / 100

/-- The dictionary returned by `calculate_optimal_stakes`. -/
structure StakeAllocation where
  stake_home : ℚ
  stake_away : ℚ
  total_staked : ℚ
  expected_profit : ℚ
  profit_percentage : ℚ
  home_wins_return : ℚ
  away_wins_return : ℚ
deriving DecidableEq

/-- Method `calculate_optimal_stakes` of the source. It performs no
bankroll validation; the only failure is the Python `ZeroDivisionError`
from `profit / total_bankroll` when `total_bankroll = 0`. -/
def calculate_optimal_stakes (opportunity : ArbitrageOpportunity)
    (total_bankroll : ℚ) : Except String StakeAllocation :=
  if total_bankroll = 0 then Except.error "ZeroDivisionError"
  else
    let stake_home_amount := opportunity.stake_home / 100 * total_bankroll
    let stake_away_amount := opportunity.stake_away / 100 * total_bankroll
    let home_wins_return := stake_home_amount * opportunity.best_home_odds
    let away_wins_return := stake_away_amount * opportunity.best_away_odds
    let profit := home_wins_return - total_bankroll
    Except.ok
      { stake_home := round2 stake_home_amount
        stake_away := round2 stake_away_amount
        total_staked := round2 (stake_home_amount + stake_away_amount)
        expected_profit := round2 profit
        profit_percentage := round2 (profit / total_bankroll * 100)
        home_wins_return := round2 home_wins_return
        away_wins_return := round2 away_wins_return }

/-- Implied probability of the best home price found for a game (the value
`home_prob` that `_calculate_arbitrage` computes inside `scan_game`). -/
def homeProb (g : GameData) : ℚ := odds_to_probability (bestOdds g).home_odds

/-- Implied probability of the best away price found for a game. -/
def awayProb (g : GameData) : ℚ := odds_to_probability (bestOdds g).away_odds

/-- The value `total_prob` of `_calculate_arbitrage` for a game. -/
def totalProb (g : GameData) : ℚ := homeProb g + awayProb g

/-- The value `profit_pct` of `_calculate_arbitrage` for a game. -/
def profitPct (g : GameData) : ℚ := 1 / totalProb g - 1

/-- A fixed environment for concrete evaluations: the hours-until
computation always raises (commence times are unparseable). -/
def env0 : Env := { now := "", hours_until := fun _ => none }

/-- A detector with the default thresholds of `__init__`. -/
def det0 : ArbitrageDetector := {}

/-- A game with a single bookmaker entry. -/
def g1 : GameData :=
  { id := "g1", sport_title := "Basketball", home_team := "Lakers",
    away_team := "Celtics", commence_time := "2026-01-01T00:00:00Z",
    bookmakers :=
      [ { title := "DraftKings",
          markets := [{ key := "h2h",
                        outcomes := [{ name := "Lakers", price := 43/20 },
                                     { name := "Celtics", price := 11/5 }] }] } ] }

/-- A game with two distinct bookmakers quoting decimal prices
2.15 (home, DraftKings) and 2.20 (away, FanDuel). -/
def gDec : GameData :=
  { id := "gDec", sport_title := "Basketball", home_team := "Lakers",
    away_team := "Celtics", commence_time := "2026-01-01T00:00:00Z",
    bookmakers :=
      [ { title := "DraftKings",
          markets := [{ key := "h2h",
                        outcomes := [{ name := "Lakers", price := 43/20 },
                                     { name := "Celtics", price := 17/10 }] }] },
        { title := "FanDuel",
          markets := [{ key := "h2h",
                        outcomes := [{ name := "Lakers", price := 17/10 },
                                     { name := "Celtics", price := 11/5 }] }] } ] }

/-- The opportunity produced by scanning `gDec` (best prices 2.15 and 2.20,
implied probabilities 20/43 and 5/11, profit fraction 38/435). -/
def oppDec : ArbitrageOpportunity :=
  { game_id := "gDec", sport := "Basketball", home_team := "Lakers",
    away_team := "Celtics", commence_time := "2026-01-01T00:00:00Z",
    best_home_odds := 43/20, best_home_bookmaker := "DraftKings",
    best_away_odds := 11/5, best_away_bookmaker := "FanDuel",
    profit_percentage := 760/87, stake_home := 4400/87, stake_away := 4300/87,
    guaranteed_return := 760/87, risk_level := "high",
    time_sensitivity := "moderate", detected_at := "" }

/-- The allocation returned by `calculate_optimal_stakes oppDec 100`. -/
def allocDec : StakeAllocation :=
  { stake_home := 5057/100, stake_away := 4943/100, total_staked := 100,
    expected_profit := 437/50, profit_percentage := 437/50,
    home_wins_return := 5437/50, away_wins_return := 5437/50 }

/-- The allocation returned by `calculate_optimal_stakes oppDec (-100)`:
no exception, silently negative stakes. -/
def allocNegDec : StakeAllocation :=
  { stake_home := -5057/100, stake_away := -4943/100, total_staked := -100,
    expected_profit := -437/50, profit_percentage := 437/50,
    home_wins_return := -5437/50, away_wins_return := -5437/50 }

/-- A game whose best home price 1.5 falls in the American-positive branch
of the conversion (probability 200/203) while the best away price 250 is
treated as decimal (probability 1/250); the combined probability 50203/50750
is accepted with profit fraction 547/50203. -/
def g15 : GameData :=
  { id := "g15", sport_title := "Basketball", home_team := "Lakers",
    away_team := "Celtics", commence_time := "2026-01-01T00:00:00Z",
    bookmakers :=
      [ { title := "DraftKings",
          markets := [{ key := "h2h",
                        outcomes := [{ name := "Lakers", price := 3/2 }] }] },
        { title := "FanDuel",
          markets := [{ key := "h2h",
                        outcomes := [{ name := "Celtics", price := 250 }] }] } ] }

/-- The opportunity produced by scanning `g15`. -/
def opp15 : ArbitrageOpportunity :=
  { game_id := "g15", sport := "Basketball", home_team := "Lakers",
    away_team := "Celtics", commence_time := "2026-01-01T00:00:00Z",
    best_home_odds := 3/2, best_home_bookmaker := "DraftKings",
    best_away_odds := 250, best_away_bookmaker := "FanDuel",
    profit_percentage := 54700/50203, stake_home := 5000000/50203,
    stake_away := 20300/50203, guaranteed_return := 54700/50203,
    risk_level := "low", time_sensitivity := "moderate", detected_at := "" }

/-- A game whose quotes all come from one bookmaker name, split over two
entries of the `bookmakers` list. -/
def gDup : GameData :=
  { id := "gDup", sport_title := "Basketball", home_team := "Lakers",
    away_team := "Celtics", commence_time := "2026-01-01T00:00:00Z",
    bookmakers :=
      [ { title := "Bet365",
          markets := [{ key := "h2h",
                        outcomes := [{ name := "Lakers", price := 43/20 }] }] },
        { title := "Bet365",
          markets := [{ key := "h2h",
                        outcomes := [{ name := "Celtics", price := 11/5 }] }] } ] }

/-- The opportunity produced by scanning `gDup`, even though its quotes all
name the single bookmaker Bet365. -/
def oppDup : ArbitrageOpportunity :=
  { game_id := "gDup", sport := "Basketball", home_team := "Lakers",
    away_team := "Celtics", commence_time := "2026-01-01T00:00:00Z",
    best_home_odds := 43/20, best_home_bookmaker := "Bet365",
    best_away_odds := 11/5, best_away_bookmaker := "Bet365",
    profit_percentage := 760/87, stake_home := 4400/87, stake_away := 4300/87,
    guaranteed_return := 760/87, risk_level := "high",
    time_sensitivity := "moderate", detected_at := "" }

/-- A game whose best prices 2.0 and 2.0 have implied probabilities summing
to exactly 1. -/
def gEven : GameData :=
  { id := "gEven", sport_title := "Basketball", home_team := "Lakers",
    away_team := "Celtics", commence_time := "2026-01-01T00:00:00Z",
    bookmakers :=
      [ { title := "DraftKings",
          markets := [{ key := "h2h",
                        outcomes := [{ name := "Lakers", price := 2 }] }] },
        { title := "FanDuel",
          markets := [{ key := "h2h",
                        outcomes := [{ name := "Celtics", price := 2 }] }] } ] }

/-- A detector whose two thresholds coincide at 1/4. -/
def detB : ArbitrageDetector :=
  { min_profit_threshold := 1/4, max_profit_threshold := 1/4 }

/-- A game with best prices 2.5 and 2.5, whose profit fraction is exactly
1/4 — on both threshold boundaries of `detB` at once. -/
def gB : GameData :=
  { id := "gB", sport_title := "Basketball", home_team := "Lakers",
    away_team := "Celtics", commence_time := "2026-01-01T00:00:00Z",
    bookmakers :=
      [ { title := "DraftKings",
          markets := [{ key := "h2h",
                        outcomes := [{ name := "Lakers", price := 5/2 }] }] },
        { title := "FanDuel",
          markets := [{ key := "h2h",
                        outcomes := [{ name := "Celtics", price := 5/2 }] }] } ] }

/-- A game whose only home-side quote has a negative (American-style)
price. -/
def gNeg : GameData :=
  { id := "gNeg", sport_title := "Basketball", home_team := "Lakers",
    away_team := "Celtics", commence_time := "2026-01-01T00:00:00Z",
    bookmakers :=
      [ { title := "DraftKings",
          markets := [{ key := "h2h",
                        outcomes := [{ name := "Lakers", price := -110 }] }] },
        { title := "FanDuel",
          markets := [{ key := "h2h",
                        outcomes := [{ name := "Celtics", price := 2 }] }] } ] }

/-- Helper: a nonzero price always converts to a positive probability. -/
theorem odds_to_probability_pos {odds : ℚ} (h : odds ≠ 0) :
    0 < odds_to_probability odds := by
  unfold odds_to_probability
  split_ifs with h1 h2
  · positivity
  · positivity
  · have hlt : odds < 0 := lt_of_le_of_ne (not_lt.mp h2) h
    have habs : 0 < |odds| := abs_pos.mpr h
    positivity

/-- Helper: anatomy of a successful `scan_game`: the guards it passed and
the exact record it returns. -/
theorem scan_game_eq_some {env : Env} {det : ArbitrageDetector}
    {g : GameData} {o : ArbitrageOpportunity}
    (h : scan_game env det g = some o) :
    2 ≤ g.bookmakers.length ∧
    (bestOdds g).home_odds ≠ 0 ∧ (bestOdds g).away_odds ≠ 0 ∧
    totalProb g < 1 ∧
    det.min_profit_threshold ≤ profitPct g ∧
    profitPct g ≤ det.max_profit_threshold ∧
    o = { game_id := g.id, sport := g.sport_title, home_team := g.home_team,
          away_team := g.away_team, commence_time := g.commence_time,
          best_home_odds := (bestOdds g).home_odds,
          best_home_bookmaker := (bestOdds g).home_bookmaker,
          best_away_odds := (bestOdds g).away_odds,
          best_away_bookmaker := (bestOdds g).away_bookmaker,
          profit_percentage := profitPct g * 100,
          stake_home := homeProb g / totalProb g * 100,
          stake_away := awayProb g / totalProb g * 100,
          guaranteed_return := profitPct g * 100,
          risk_level := assess_risk (profitPct g) (bestOdds g).home_odds
            (bestOdds g).away_odds (bestOdds g).home_bookmaker
            (bestOdds g).away_bookmaker,
          time_sensitivity := assess_time_sensitivity env g (profitPct g),
          detected_at := env.now } := by
  simp only [scan_game, calculate_arbitrage] at h
  split_ifs at h with h1 h2 h3 h4 h5
  refine ⟨not_lt.mp h1, ?_, ?_, not_le.mp h3, not_lt.mp h4, not_lt.mp h5, ?_⟩
  · exact fun hh => h2 (Or.inl hh)
  · exact fun ha => h2 (Or.inr ha)
  · simp only [Option.some.injEq] at h
    exact h.symm

/-- Helper: the total implied probability of a game with two valid best
prices is positive. -/
theorem totalProb_pos {g : GameData} (hh : (bestOdds g).home_odds ≠ 0)
    (ha : (bestOdds g).away_odds ≠ 0) : 0 < totalProb g :=
  add_pos (odds_to_probability_pos hh) (odds_to_probability_pos ha)

/-- C1 counterexample: the conversion maps the American positive price 150
to 1/150 (the decimal branch fires for every price at least 2.0), not to
the 0.4 the claim expects. -/
theorem odds_to_probability_american150_cex :
    odds_to_probability 150 = 1/150 ∧ (1/150 : ℚ) ≠ 2/5 := by
  constructor
  · norm_num [odds_to_probability]
  · norm_num

/-- C1 (amended): the decimal branch applies to every price at least 2.0
— including American-style positive inputs such as 150, which yields
1/150 rather than 0.4 — the American positive conversion 100/(p+100)
applies only to prices strictly between 0 and 2, and the American negative
conversion gives 0.6 at price -150. -/
theorem odds_to_probability_branches :
    (∀ p : ℚ, 2 ≤ p → odds_to_probability p = 1 / p) ∧
    (∀ p : ℚ, 0 < p → p < 2 → odds_to_probability p = 100 / (p + 100)) ∧
    odds_to_probability 150 = 1/150 ∧
    odds_to_probability (-150) = 3/5 := by
  refine ⟨fun p hp => ?_, fun p hp0 hp2 => ?_, ?_, ?_⟩
  · simp only [odds_to_probability, if_pos hp]
  · simp only [odds_to_probability, if_neg (not_le.mpr hp2), if_pos hp0]
  · norm_num [odds_to_probability]
  · norm_num [odds_to_probability]

/-- C1 witness: the amended conversion rules evaluated at the concrete
decimal price 4 and the concrete in-(0,2) price 3/2. -/
theorem odds_to_probability_branches_witness :
    odds_to_probability 4 = 1 / 4 ∧
    odds_to_probability (3/2) = 100 / (3/2 + 100) :=
  ⟨odds_to_probability_branches.1 4 (by norm_num),
   odds_to_probability_branches.2.1 (3/2) (by norm_num) (by norm_num)⟩

/-- C10: whenever the hours-until-commence computation fails (the
commence time of the game cannot be parsed), the time-sensitivity classification is
"moderate" — and, being a total function, it never raises. -/
theorem unparseable_commence_time_moderate (env : Env) (g : GameData)
    (profit_pct : ℚ) (h : env.hours_until g.commence_time = none) :
    assess_time_sensitivity env g profit_pct = "moderate" := by
  simp only [assess_time_sensitivity, h]

/-- C10 witness: the classification of a concrete game under the
always-failing parse environment, at a high profit fraction. -/
theorem unparseable_commence_time_moderate_witness :
    assess_time_sensitivity env0 gDec 5 = "moderate" :=
  unparseable_commence_time_moderate env0 gDec 5 rfl

/-- C3 counterexample: the quotes of `gDup` all come from the single
bookmaker name Bet365 (one distinct title), split across two entries of
the `bookmakers` list, yet `scan_game` returns an opportunity: the guard
counts list entries, not distinct bookmakers. -/
theorem single_bookmaker_duplicate_title_cex :
    (gDup.bookmakers.map Bookmaker.title).dedup.length = 1 ∧
    scan_game env0 det0 gDup = some oppDup := by
  constructor
  · decide
  · norm_num +decide [scan_game, bestOdds, scanBookmaker, updateBest,
      calculate_arbitrage, odds_to_probability, assess_risk,
      assess_time_sensitivity, env0, det0, gDup, oppDup]

/-- C3 (amended): `scan_game` returns none whenever the `bookmakers` list
has fewer than 2 entries; the guard counts entries of that list, so quotes
of one bookmaker split over two entries do pass it. -/
theorem scan_game_single_entry_none (env : Env) (det : ArbitrageDetector)
    (g : GameData) (h : g.bookmakers.length < 2) :
    scan_game env det g = none := by
  simp only [scan_game, if_pos h]

/-- C3 witness: the single-entry game `g1` is rejected. -/
theorem scan_game_single_entry_none_witness :
    scan_game env0 det0 g1 = none :=
  scan_game_single_entry_none env0 det0 g1 (by decide)

/-- C5: whenever the implied probabilities of the two best prices sum to
1.0 or more, `scan_game` returns none (the boundary case of a sum of
exactly 1.0 included). -/
theorem no_arbitrage_total_ge_one (env : Env) (det : ArbitrageDetector)
    (g : GameData) (h : 1 ≤ totalProb g) : scan_game env det g = none := by
  simp only [totalProb, homeProb, awayProb] at h
  simp only [scan_game, calculate_arbitrage]
  split_ifs <;> rfl

/-- C5 witness: the best prices 2.0/2.0 of `gEven` imply probabilities
summing to exactly 1, and the game is rejected. -/
theorem no_arbitrage_total_ge_one_witness :
    scan_game env0 det0 gEven = none :=
  no_arbitrage_total_ge_one env0 det0 gEven
    (by norm_num +decide [totalProb, homeProb, awayProb, bestOdds,
      scanBookmaker, updateBest, odds_to_probability, gEven])

/-- C4: every opportunity returned by `scan_game` carries bankroll
fractions (the `stake_home`/`stake_away` percentages divided by 100) that
lie in [0,1] and sum to exactly 1. -/
theorem stake_fractions_sum_one (env : Env) (det : ArbitrageDetector)
    (g : GameData) (o : ArbitrageOpportunity)
    (h : scan_game env det g = some o) :
    0 ≤ o.stake_home / 100 ∧ o.stake_home / 100 ≤ 1 ∧
    0 ≤ o.stake_away / 100 ∧ o.stake_away / 100 ≤ 1 ∧
    o.stake_home / 100 + o.stake_away / 100 = 1 := by
  obtain ⟨-, hh, ha, -, -, -, ho⟩ := scan_game_eq_some h
  have hhp : 0 < homeProb g := odds_to_probability_pos hh
  have hap : 0 < awayProb g := odds_to_probability_pos ha
  have ht : 0 < totalProb g := totalProb_pos hh ha
  have hsh : o.stake_home / 100 = homeProb g / totalProb g := by
    rw [ho]; field_simp; ring
  have hsa : o.stake_away / 100 = awayProb g / totalProb g := by
    rw [ho]; field_simp; ring
  rw [hsh, hsa]
  refine ⟨div_nonneg hhp.le ht.le, ?_, div_nonneg hap.le ht.le, ?_, ?_⟩
  · rw [div_le_one ht]
    simp only [totalProb]
    linarith
  · rw [div_le_one ht]
    simp only [totalProb]
    linarith
  · rw [div_add_div_same]
    exact div_self ht.ne'

/-- C4 witness: the fractions of the concrete opportunity found in `gDec`
(4400/87 percent and 4300/87 percent). -/
theorem stake_fractions_sum_one_witness :
    0 ≤ oppDec.stake_home / 100 ∧ oppDec.stake_home / 100 ≤ 1 ∧
    0 ≤ oppDec.stake_away / 100 ∧ oppDec.stake_away / 100 ≤ 1 ∧
    oppDec.stake_home / 100 + oppDec.stake_away / 100 = 1 :=
  stake_fractions_sum_one env0 det0 gDec oppDec
    (by norm_num +decide [scan_game, bestOdds, scanBookmaker, updateBest,
      calculate_arbitrage, odds_to_probability, assess_risk,
      assess_time_sensitivity, env0, det0, gDec, oppDec])

/-- C6: threshold gating is inclusive at both ends — a game that passes
the bookmaker-count and valid-price guards and whose total probability is
below 1 is accepted whenever its profit fraction is at least the minimum
threshold and at most the maximum threshold; rejection happens only for
profits strictly below the minimum or strictly above the maximum, so exact
boundary profits are accepted. -/
theorem threshold_gating_inclusive (env : Env) (det : ArbitrageDetector)
    (g : GameData) (hlen : 2 ≤ g.bookmakers.length)
    (hh : (bestOdds g).home_odds ≠ 0) (ha : (bestOdds g).away_odds ≠ 0)
    (htot : totalProb g < 1)
    (hmin : det.min_profit_threshold ≤ profitPct g)
    (hmax : profitPct g ≤ det.max_profit_threshold) :
    (scan_game env det g).isSome = true := by
  simp only [scan_game, calculate_arbitrage]
  split_ifs with h1 h2 h3 h4 h5
  · exact absurd hlen (not_le.mpr h1)
  · rcases h2 with h2 | h2
    · exact absurd h2 hh
    · exact absurd h2 ha
  · exact absurd htot (not_lt.mpr h3)
  · exact absurd hmin (not_le.mpr h4)
  · exact absurd hmax (not_le.mpr h5)
  · rfl

/-- C6 witness: with both thresholds set to 1/4 (detector `detB`), the
game `gB` whose profit fraction is exactly 1/4 — simultaneously on the
minimum and maximum boundary — is accepted. -/
theorem threshold_gating_inclusive_witness :
    (scan_game env0 detB gB).isSome = true :=
  threshold_gating_inclusive env0 detB gB (by decide)
    (by norm_num +decide [bestOdds, scanBookmaker, updateBest, gB])
    (by norm_num +decide [bestOdds, scanBookmaker, updateBest, gB])
    (by norm_num +decide [totalProb, homeProb, awayProb, bestOdds,
      scanBookmaker, updateBest, odds_to_probability, gB])
    (by norm_num +decide [profitPct, totalProb, homeProb, awayProb, bestOdds,
      scanBookmaker, updateBest, odds_to_probability, gB, detB])
    (by norm_num +decide [profitPct, totalProb, homeProb, awayProb, bestOdds,
      scanBookmaker, updateBest, odds_to_probability, gB, detB])

/-- Helper: a predicate preserved by every step of a fold holds of the
result of the fold. -/
theorem foldl_preserve {α β : Type} (P : β → Prop) {f : β → α → β}
    (l : List α) (hf : ∀ b, ∀ a ∈ l, P b → P (f b a)) :
    ∀ {init : β}, P init → P (l.foldl f init) := by
  induction l with
  | nil => exact fun h0 => h0
  | cons x xs ih =>
    intro init h0
    exact ih (fun b a ha hb => hf b a (List.mem_cons_of_mem x ha) hb)
      (hf init x (List.mem_cons_self x xs) h0)

/-- Helper: an outcome whose home-side price is nonpositive never raises
the running best home price above the 0 sentinel. -/
theorem updateBest_home_zero {ht aw bn : String} {st : BestPair}
    {o : Outcome} (hq : o.name = ht → o.price ≤ 0) (h : st.home_odds = 0) :
    (updateBest ht aw bn st o).home_odds = 0 := by
  unfold updateBest
  split_ifs with h1 h2
  · exact absurd h1.2 (by rw [h]; exact not_lt.mpr (hq h1.1))
  · exact h
  · exact h

/-- Helper: away-side analogue of `updateBest_home_zero`. -/
theorem updateBest_away_zero {ht aw bn : String} {st : BestPair}
    {o : Outcome} (hq : o.name = aw → o.price ≤ 0) (h : st.away_odds = 0) :
    (updateBest ht aw bn st o).away_odds = 0 := by
  unfold updateBest
  split_ifs with h1 h2
  · exact h
  · exact absurd h2.2 (by rw [h]; exact not_lt.mpr (hq h2.1))
  · exact h

/-- Helper: a bookmaker entry all of whose home-side quotes are
nonpositive leaves the best home price at the 0 sentinel. -/
theorem scanBookmaker_home_zero {ht aw : String} {bm : Bookmaker}
    (hq : ∀ m ∈ bm.markets, ∀ o ∈ m.outcomes, o.name = ht → o.price ≤ 0)
    {st : BestPair} (h : st.home_odds = 0) :
    (scanBookmaker ht aw st bm).home_odds = 0 := by
  unfold scanBookmaker
  refine foldl_preserve (fun st : BestPair => st.home_odds = 0) bm.markets ?_ h
  intro s m hm hs
  split_ifs with hk
  · exact foldl_preserve (fun st : BestPair => st.home_odds = 0) m.outcomes
      (fun b o hob hb => updateBest_home_zero (hq m hm o hob) hb) hs
  · exact hs

/-- Helper: away-side analogue of `scanBookmaker_home_zero`. -/
theorem scanBookmaker_away_zero {ht aw : String} {bm : Bookmaker}
    (hq : ∀ m ∈ bm.markets, ∀ o ∈ m.outcomes, o.name = aw → o.price ≤ 0)
    {st : BestPair} (h : st.away_odds = 0) :
    (scanBookmaker ht aw st bm).away_odds = 0 := by
  unfold scanBookmaker
  refine foldl_preserve (fun st : BestPair => st.away_odds = 0) bm.markets ?_ h
  intro s m hm hs
  split_ifs with hk
  · exact foldl_preserve (fun st : BestPair => st.away_odds = 0) m.outcomes
      (fun b o hob hb => updateBest_away_zero (hq m hm o hob) hb) hs
  · exact hs

/-- Helper: if all quotes naming the home team have nonpositive prices,
the extracted best home price is the 0 sentinel. -/
theorem bestOdds_home_zero {g : GameData}
    (hq : ∀ bm ∈ g.bookmakers, ∀ m ∈ bm.markets, ∀ o ∈ m.outcomes,
      o.name = g.home_team → o.price ≤ 0) :
    (bestOdds g).home_odds = 0 := by
  unfold bestOdds
  exact foldl_preserve (fun st : BestPair => st.home_odds = 0) g.bookmakers
    (fun st bm hbm hst => scanBookmaker_home_zero (hq bm hbm) hst) rfl

/-- Helper: away-side analogue of `bestOdds_home_zero`. -/
theorem bestOdds_away_zero {g : GameData}
    (hq : ∀ bm ∈ g.bookmakers, ∀ m ∈ bm.markets, ∀ o ∈ m.outcomes,
      o.name = g.away_team → o.price ≤ 0) :
    (bestOdds g).away_odds = 0 := by
  unfold bestOdds
  exact foldl_preserve (fun st : BestPair => st.away_odds = 0) g.bookmakers
    (fun st bm hbm hst => scanBookmaker_away_zero (hq bm hbm) hst) rfl

/-- C7: a quote with nonpositive price is never selected as a best price
(best-price tracking starts at the 0 sentinel and moves only on a strict
increase), so a game all of whose quotes naming one side have price at
most 0 is always rejected — American negative prices can never reach the
probability conversion through `scan_game`. -/
theorem nonpositive_prices_never_best (env : Env) (det : ArbitrageDetector)
    (g : GameData)
    (hq : (∀ bm ∈ g.bookmakers, ∀ m ∈ bm.markets, ∀ o ∈ m.outcomes,
             o.name = g.home_team → o.price ≤ 0) ∨
          (∀ bm ∈ g.bookmakers, ∀ m ∈ bm.markets, ∀ o ∈ m.outcomes,
             o.name = g.away_team → o.price ≤ 0)) :
    scan_game env det g = none := by
  have hz : (bestOdds g).home_odds = 0 ∨ (bestOdds g).away_odds = 0 := by
    rcases hq with hq | hq
    · exact Or.inl (bestOdds_home_zero hq)
    · exact Or.inr (bestOdds_away_zero hq)
  simp only [scan_game]
  split_ifs <;> rfl

/-- C7 witness: the game `gNeg`, whose only home-side quote is the
American negative price -110, is rejected. -/
theorem nonpositive_prices_never_best_witness :
    scan_game env0 det0 gNeg = none :=
  nonpositive_prices_never_best env0 det0 gNeg
    (Or.inl (by norm_num +decide [gNeg]))

/-- C8: evaluating `calculate_optimal_stakes` at a negative bankroll of
-100 on the opportunity found in `gDec`: no invalid-argument failure
occurs — the call silently succeeds and returns a negative home stake. -/
theorem negative_bankroll_silently_accepted :
    calculate_optimal_stakes oppDec (-100) = Except.ok allocNegDec ∧
    allocNegDec.stake_home < 0 := by
  constructor
  · norm_num +decide [calculate_optimal_stakes, round2, oppDec, allocNegDec]
  · norm_num [allocNegDec]

/-- C2 counterexample: the game `g15` is accepted by `scan_game` (its best
home price 1.5 converts through the American-positive branch), yet at
bankroll 100 the stake amounts violate the claimed equalization: the home
payout differs from the away payout far beyond a 1e-6 relative tolerance,
and differs from `B * (1 + profit_fraction)`. -/
theorem stake_equalization_cex :
    scan_game env0 det0 g15 = some opp15 ∧
    ¬ |opp15.stake_home / 100 * 100 * opp15.best_home_odds -
         opp15.stake_away / 100 * 100 * opp15.best_away_odds| ≤
       1/1000000 * |opp15.stake_away / 100 * 100 * opp15.best_away_odds| ∧
    opp15.stake_home / 100 * 100 * opp15.best_home_odds ≠
      100 * (1 + opp15.profit_percentage / 100) := by
  refine ⟨?_, ?_, ?_⟩
  · norm_num +decide [scan_game, bestOdds, scanBookmaker, updateBest,
      calculate_arbitrage, odds_to_probability, assess_risk,
      assess_time_sensitivity, env0, det0, g15, opp15]
  · rw [abs_of_pos (by norm_num [opp15]), abs_of_pos (by norm_num [opp15])]
    norm_num [opp15]
  · norm_num [opp15]

/-- C2 (amended): for every opportunity accepted by `scan_game` whose two
best prices are both at least 2.0 (the decimal branch of the conversion)
and every nonzero bankroll B, the unrounded stake amounts
`stake_home/100 * B` and `stake_away/100 * B` computed by
`calculate_optimal_stakes` satisfy the equalization exactly: each times
its price equals `B * (1 + profit_fraction)`, and the returned
`home_wins_return` and `away_wins_return` coincide. The invariant fails
when a best price lies in (0,2), where the American-positive conversion
applies (see the counterexample), and the rounding of the returned fields
to two decimals is excluded from the exact statement. -/
theorem stake_equalization_decimal (env : Env) (det : ArbitrageDetector)
    (g : GameData) (o : ArbitrageOpportunity) (B : ℚ) (a : StakeAllocation)
    (h : scan_game env det g = some o)
    (hh2 : 2 ≤ o.best_home_odds) (ha2 : 2 ≤ o.best_away_odds) (hB : 0 < B)
    (halloc : calculate_optimal_stakes o B = Except.ok a) :
    o.stake_home / 100 * B * o.best_home_odds
      = B * (1 + o.profit_percentage / 100) ∧
    o.stake_away / 100 * B * o.best_away_odds
      = B * (1 + o.profit_percentage / 100) ∧
    a.home_wins_return = a.away_wins_return := by
  obtain ⟨-, hh, ha, -, -, -, ho⟩ := scan_game_eq_some h
  have ht : 0 < totalProb g := totalProb_pos hh ha
  have hbh : o.best_home_odds = (bestOdds g).home_odds := by rw [ho]
  have hba : o.best_away_odds = (bestOdds g).away_odds := by rw [ho]
  have hph : homeProb g = 1 / (bestOdds g).home_odds := by
    rw [homeProb, odds_to_probability, if_pos (hbh ▸ hh2)]
  have hpa : awayProb g = 1 / (bestOdds g).away_odds := by
    rw [awayProb, odds_to_probability, if_pos (hba ▸ ha2)]
  have e1 : o.stake_home / 100 * B * o.best_home_odds = B / totalProb g := by
    have hsh : o.stake_home = homeProb g / totalProb g * 100 := by rw [ho]
    rw [hsh, hbh, hph]
    field_simp
    ring
  have e2 : o.stake_away / 100 * B * o.best_away_odds = B / totalProb g := by
    have hsa : o.stake_away = awayProb g / totalProb g * 100 := by rw [ho]
    rw [hsa, hba, hpa]
    field_simp
    ring
  have e3 : B * (1 + o.profit_percentage / 100) = B / totalProb g := by
    have hpp : o.profit_percentage = profitPct g * 100 := by rw [ho]
    rw [hpp, profitPct]
    field_simp
    ring
  have hB0 : B ≠ 0 := hB.ne'
  simp only [calculate_optimal_stakes, if_neg hB0, Except.ok.injEq] at halloc
  have hret : a.home_wins_return
      = round2 (o.stake_home / 100 * B * o.best_home_odds) := by
    rw [← halloc]
  have haret : a.away_wins_return
      = round2 (o.stake_away / 100 * B * o.best_away_odds) := by
    rw [← halloc]
  refine ⟨by rw [e1, e3], by rw [e2, e3], ?_⟩
  rw [hret, haret, e1, e2]

/-- C2 witness: the equalization at the decimal-odds opportunity found in
`gDec` (prices 2.15 and 2.20) with bankroll 100: both unrounded payouts
equal 100 * (1 + 38/435), and the returned payout fields coincide. -/
theorem stake_equalization_decimal_witness :
    oppDec.stake_home / 100 * 100 * oppDec.best_home_odds
      = 100 * (1 + oppDec.profit_percentage / 100) ∧
    oppDec.stake_away / 100 * 100 * oppDec.best_away_odds
      = 100 * (1 + oppDec.profit_percentage / 100) ∧
    allocDec.home_wins_return = allocDec.away_wins_return :=
  stake_equalization_decimal env0 det0 gDec oppDec 100 allocDec
    (by norm_num +decide [scan_game, bestOdds, scanBookmaker, updateBest,
      calculate_arbitrage, odds_to_probability, assess_risk,
      assess_time_sensitivity, env0, det0, gDec, oppDec])
    (by norm_num [oppDec]) (by norm_num [oppDec]) (by norm_num)
    (by norm_num +decide [calculate_optimal_stakes, round2, oppDec, allocDec])

/-- Helper: stable insertion produces a permutation of consing. -/
theorem insertByProfitDesc_perm (x : ArbitrageOpportunity)
    (l : List ArbitrageOpportunity) :
    List.Perm (insertByProfitDesc x l) (x :: l) := by
  induction l with
  | nil => exact List.Perm.refl _
  | cons y ys ih =>
    unfold insertByProfitDesc
    split_ifs with hle
    · exact List.Perm.refl _
    · exact List.Perm.trans (List.Perm.cons y ih) (List.Perm.swap x y ys)

/-- Helper: stable insertion preserves descending order by profit. -/
theorem insertByProfitDesc_pairwise (x : ArbitrageOpportunity)
    (l : List ArbitrageOpportunity)
    (h : l.Pairwise (fun a b => b.profit_percentage ≤ a.profit_percentage)) :
    (insertByProfitDesc x l).Pairwise
      (fun a b => b.profit_percentage ≤ a.profit_percentage) := by
  induction l with
  | nil => simp [insertByProfitDesc]
  | cons y ys ih =>
    rw [List.pairwise_cons] at h
    obtain ⟨hy, hys⟩ := h
    unfold insertByProfitDesc
    split_ifs with hle
    · refine List.Pairwise.cons ?_ (List.Pairwise.cons hy hys)
      intro b hb
      rcases List.mem_cons.mp hb with rfl | hb
      · exact hle
      · exact le_trans (hy b hb) hle
    · refine List.Pairwise.cons ?_ (ih hys)
      intro b hb
      have hb2 := (insertByProfitDesc_perm x ys).mem_iff.mp hb
      rcases List.mem_cons.mp hb2 with rfl | hb2
      · exact (not_le.mp hle).le
      · exact hy b hb2

/-- Helper: stability of insertion — filtering by any exact profit value
commutes with stable insertion, because every element the inserted one is
placed after has a strictly larger profit. -/
theorem insertByProfitDesc_filter (x : ArbitrageOpportunity)
    (l : List ArbitrageOpportunity) (p : ℚ) :
    (insertByProfitDesc x l).filter (fun o => decide (o.profit_percentage = p))
      = (x :: l).filter (fun o => decide (o.profit_percentage = p)) := by
  induction l with
  | nil => rfl
  | cons y ys ih =>
    unfold insertByProfitDesc
    split_ifs with hle
    · rfl
    · simp only [List.filter_cons, ih]
      by_cases hx : x.profit_percentage = p
      · have hyne : y.profit_percentage ≠ p := fun he =>
          hle (le_of_eq (he.trans hx.symm))
        simp [hx, hyne]
      · simp [hx]

/-- Helper: the stable sort is a permutation. -/
theorem sortByProfitDesc_perm (l : List ArbitrageOpportunity) :
    List.Perm (sortByProfitDesc l) l := by
  induction l with
  | nil => exact List.Perm.refl _
  | cons x xs ih =>
    exact List.Perm.trans (insertByProfitDesc_perm x (sortByProfitDesc xs))
      (List.Perm.cons x ih)

/-- Helper: the stable sort is descending by profit. -/
theorem sortByProfitDesc_pairwise (l : List ArbitrageOpportunity) :
    (sortByProfitDesc l).Pairwise
      (fun a b => b.profit_percentage ≤ a.profit_percentage) := by
  induction l with
  | nil => exact List.Pairwise.nil
  | cons x xs ih => exact insertByProfitDesc_pairwise x _ ih

/-- Helper: stability of the sort — the subsequence at any exact profit
value is unchanged. -/
theorem sortByProfitDesc_filter (l : List ArbitrageOpportunity) (p : ℚ) :
    (sortByProfitDesc l).filter (fun o => decide (o.profit_percentage = p))
      = l.filter (fun o => decide (o.profit_percentage = p)) := by
  induction l with
  | nil => rfl
  | cons x xs ih =>
    simp only [sortByProfitDesc, insertByProfitDesc_filter, List.filter_cons, ih]

/-- C9: `scan_multiple_games` returns exactly the non-none `scan_game`
results (a permutation of the kept results, in particular nothing else),
sorted by `profit_percentage` descending, and the sort is stable: for
every profit value p, the sublist of output opportunities with that
exact profit equals the sublist of kept results in original input order, so
tied entries keep their relative order. -/
theorem scan_multiple_games_sorted_stable (env : Env)
    (det : ArbitrageDetector) (games : List GameData) :
    (scan_multiple_games env det games).Pairwise
      (fun a b => b.profit_percentage ≤ a.profit_percentage) ∧
    List.Perm (scan_multiple_games env det games)
      (games.filterMap (scan_game env det)) ∧
    ∀ p : ℚ,
      (scan_multiple_games env det games).filter
          (fun o => decide (o.profit_percentage = p))
        = (games.filterMap (scan_game env det)).filter
            (fun o => decide (o.profit_percentage = p)) :=
  ⟨sortByProfitDesc_pairwise _, sortByProfitDesc_perm _,
   fun p => sortByProfitDesc_filter _ p⟩
